import Mathlib

/-!
Shallow embedding of the OCR microservice in main.py: PDF detection
(is_pdf), the page-selection parser (parse_pages), the per-page OCR
aggregation loop of the /ocr handler (extract_text), and the handler's
input resolution, exception classification and temp-dir cleanup.

External collaborators (HTTP download, pdf2image rasterisation, the
PaddleOCR engine) are passed in as oracle functions; machine floats are
modelled as rationals; Python exceptions are modelled with Except.
-/

namespace OcrService

/-! ### Python primitives used by main.py -/

/-- Whitespace characters stripped by Python str.strip and int(). -/
def isPyWs (c : Char) : Bool :=
  c == ' ' || c == '\t' || c == '\n' || c == '\r' || c == '\x0b' || c == '\x0c'

/-- Python str.strip(): drop leading and trailing whitespace. -/
def pyStrip (cs : List Char) : List Char :=
  ((cs.dropWhile isPyWs).reverse.dropWhile isPyWs).reverse

def isAsciiDigit (c : Char) : Bool :=
  '0' ≤ c && c ≤ '9'

def digitVal (c : Char) : Nat :=
  c.toNat - '0'.toNat

/-- Digits of a Python int literal after the first digit: single
underscores are permitted between digits (CPython grammar). -/
def digitsTail : List Char → Nat → Option Nat
  | [], acc => some acc
  | '_' :: rest, acc =>
    match rest with
    | [] => none
    | c :: rest2 =>
      if isAsciiDigit c then digitsTail rest2 (acc * 10 + digitVal c) else none
  | c :: rest, acc =>
    if isAsciiDigit c then digitsTail rest (acc * 10 + digitVal c) else none

/-- Value of a nonempty digit string (underscore separators allowed). -/
def digitsVal : List Char → Option Nat
  | [] => none
  | c :: rest => if isAsciiDigit c then digitsTail rest (digitVal c) else none

/-- Python int(str): strip whitespace, optional sign, ASCII digits.
Returns none where CPython raises ValueError. -/
def pyInt (cs : List Char) : Option Int :=
  match pyStrip cs with
  | '+' :: rest => (digitsVal rest).map Int.ofNat
  | '-' :: rest => (digitsVal rest).map (fun n => -(n : Int))
  | rest => (digitsVal rest).map Int.ofNat

/-- Python str.split(sep) for a one-character separator. -/
def splitOnChar (sep : Char) : List Char → List (List Char)
  | [] => [[]]
  | c :: rest =>
    let r := splitOnChar sep rest
    if c == sep then [] :: r
    else
      match r with
      | [] => [[c]]
      | g :: gs => (c :: g) :: gs

/-- Python list(range(a, b)) over machine integers. -/
def pyRange (a b : Int) : List Int :=
  (List.range (b - a).toNat).map (fun (i : Nat) => a + (i : Int))

/-- Python list indexing: negative indices count from the end; out of
range raises IndexError. Returns the resolved 0-based index into a list
of length n. -/
def pyIndex (n : Nat) (i : Int) : Except String Nat :=
  let j := if i < 0 then i + (n : Int) else i
  if 0 ≤ j ∧ j < (n : Int) then .ok j.toNat
  else .error "IndexError: list index out of range"

/-- CPython ValueError message for int() on a bad literal (quotes around
the literal omitted). -/
def intErrMsg (cs : List Char) : String :=
  "invalid literal for int() with base 10: " ++ String.mk cs

/-! ### is_pdf (main.py lines 57-59) -/

/-- The 4 leading bytes of a PDF: the ASCII codes of the percent sign,
P, D, F. -/
def pdfMagic : List Nat := [37, 80, 68, 70]

/-- Check if file is PDF: file_bytes[:4] == b'%PDF'. -/
def is_pdf (file_bytes : List Nat) : Bool :=
  file_bytes.take 4 == pdfMagic

/-! ### parse_pages (main.py lines 61-101) -/

/-- List comprehension [int(p.strip()) for p in parts]: the first bad
literal raises ValueError. -/
def pyIntList : List (List Char) → Except String (List Int)
  | [] => .ok []
  | p :: rest =>
    match pyInt (pyStrip p) with
    | none => .error (intErrMsg (pyStrip p))
    | some v =>
      match pyIntList rest with
      | .error e => .error e
      | .ok vs => .ok (v :: vs)

/-- Parse page parameter into list of page numbers (main.py 61-101).
A ValueError escaping the function is returned as Except.error. -/
def parse_pages (pages_param : String) (total_pages max_pages : Int) :
    Except String (List Int) :=
  if pages_param = "all" then
    .ok (pyRange 1 (min (total_pages + 1) (max_pages + 1)))
  else if pages_param = "first" then
    .ok [1]
  else if pages_param = "last" then
    .ok [total_pages]
  else if pages_param.data.contains '-' then
    match splitOnChar '-' pages_param.data with
    | [s, e] =>
      match pyInt s with
      | none => .error (intErrMsg s)
      | some start =>
        match pyInt e with
        | none => .error (intErrMsg e)
        | some en => .ok (pyRange start (min (min en total_pages) max_pages + 1))
    | _ => .error "ValueError: values to unpack do not number 2"
  else if pages_param.data.contains ',' then
    match pyIntList (splitOnChar ',' pages_param.data) with
    | .error e => .error e
    | .ok page_list =>
      .ok (page_list.filter
        (fun p => decide (1 ≤ p ∧ p ≤ total_pages ∧ p ≤ max_pages)))
  else
    match pyInt pages_param.data with
    | some page =>
      if 1 ≤ page ∧ page ≤ total_pages then .ok [page] else .ok [1]
    | none => .ok [1]

/-! ### Rounding (Python round(x, 4) on confidences, modelled on rationals) -/

/-- Floor of a rational, computed by floor division of numerator by
denominator. -/
def ratFloor (q : ℚ) : Int :=
  Int.fdiv q.num (q.den : Int)

/-- Round to the nearest integer, ties to even (Python round). -/
def bankersRound (q : ℚ) : Int :=
  let f := ratFloor q
  let r := q - (f : ℚ)
  if r < 1/2 then f
  else if 1/2 < r then f + 1
  else if f % 2 = 0 then f else f + 1

/-- Python round(x, 4), with the machine float modelled as a rational. -/
def pyRound4 (q : ℚ) : ℚ :=
  (bankersRound (q * 10000) : ℚ) / 10000

/-! ### Data model of the /ocr handler (main.py lines 103-344) -/

/-- One line as returned by the OCR engine: recognised text, confidence,
bounding box (four points in the real code; kept as a point list). -/
structure OcrLine where
  text : String
  confidence : ℚ
  bbox : List (ℚ × ℚ)
deriving DecidableEq

/-- One line of the JSON response: confidence and bbox are attached only
when the corresponding include flag is set (main.py 234-240). -/
structure LineData where
  text : String
  confidence : Option ℚ
  bbox : Option (List (ℚ × ℚ))
deriving DecidableEq

/-- Per-page entry of the pages array of the response. The text field is
set in the PDF branch (main.py 246) and absent in the image branch. -/
structure PageData where
  page_number : Int
  lines : List LineData
  text : Option String
deriving DecidableEq

/-- The two output-option form fields that shape per-line output. -/
structure Flags where
  include_confidence : Bool
  include_coordinates : Bool
deriving DecidableEq

/-- Accumulators of the PDF page loop (main.py 197-200). -/
structure Agg where
  all_results : List PageData
  all_text : List String
  total_confidence : ℚ
  confidence_count : Nat
deriving DecidableEq

def initAgg : Agg := { all_results := [], all_text := [], total_confidence := 0, confidence_count := 0 }

/-- Whether any per-line detail is requested (include_confidence or
include_coordinates). -/
def anyDetail (f : Flags) : Bool :=
  f.include_confidence || f.include_coordinates

/-- Build one response line from an engine line (main.py 235-239). -/
def mkLineData (f : Flags) (l : OcrLine) : LineData :=
  { text := l.text
  , confidence := if f.include_confidence then some (pyRound4 l.confidence) else none
  , bbox := if f.include_coordinates then some l.bbox else none }

/-- The inner for-loop over the lines of one page (main.py 225-240):
accumulates page text lines, the running confidence sum and count, and
the per-line response entries. -/
def lineLoop (f : Flags) : List OcrLine → List String → ℚ → Nat → List LineData →
    List String × ℚ × Nat × List LineData
  | [], texts, tc, cc, lds => (texts, tc, cc, lds)
  | l :: rest, texts, tc, cc, lds =>
    lineLoop f rest (texts ++ [l.text]) (tc + l.confidence) (cc + 1)
      (if anyDetail f then lds ++ [mkLineData f l] else lds)

/-- The body of one iteration of the PDF page loop once the engine has
answered (main.py 218-247): pages whose result is empty contribute
nothing. -/
def processOnePage (f : Flags) (page_num : Int) (lines : List OcrLine) (st : Agg) : Agg :=
  if lines.isEmpty then st
  else
    let r := lineLoop f lines [] st.total_confidence st.confidence_count []
    let page_text := String.intercalate "\n" r.1
    { all_results :=
        if anyDetail f then
          st.all_results ++ [{ page_number := page_num, lines := r.2.2.2, text := some page_text }]
        else st.all_results
    , all_text := st.all_text ++ [page_text]
    , total_confidence := r.2.1
    , confidence_count := r.2.2.1 }

/-- Resolve one selected page number against the rasterised page images
and run the engine on it: images[page_num - 1] then ocr.ocr(path). The
engine oracle maps the 0-based image index to its line results or to the
message of a raised exception. -/
def pageLines (ocr : Nat → Except String (List OcrLine)) (total : Nat) (page_num : Int) :
    Except String (List OcrLine) :=
  match pyIndex total (page_num - 1) with
  | .error e => .error e
  | .ok idx => ocr idx

/-- The PDF page loop (main.py 202-247). Any exception from indexing or
from the engine propagates immediately; there is no per-page recovery. -/
def pageLoop (f : Flags) (ocr : Nat → Except String (List OcrLine)) (total : Nat) :
    List Int → Agg → Except String Agg
  | [], st => .ok st
  | p :: rest, st =>
    match pageLines ocr total p with
    | .error e => .error e
    | .ok lines => pageLoop f ocr total rest (processOnePage f p lines st)

/-- Document-level average confidence (main.py 250). -/
def docAvg (agg : Agg) : ℚ :=
  if agg.confidence_count > 0 then agg.total_confidence / (agg.confidence_count : ℚ) else 0

/-- Result of one processing branch before the response is shaped. -/
structure BranchResult where
  combined_text : String
  avg_confidence : ℚ
  all_results : List PageData
  total_pages : Nat
  pages_to_process : List Int
deriving DecidableEq

/-- The single-image branch (main.py 252-292). When the engine reports
no lines, the branch yields empty text, zero confidence and an empty
pages_to_process list. -/
def processImage (f : Flags) (lines : List OcrLine) : BranchResult :=
  if lines.isEmpty then
    { combined_text := "", avg_confidence := 0, all_results := [],
      total_pages := 1, pages_to_process := [] }
  else
    let r := lineLoop f lines [] 0 0 []
    { combined_text := String.intercalate "\n" r.1
    , avg_confidence := if lines.length > 0 then r.2.1 / (lines.length : ℚ) else 0
    , all_results := if anyDetail f then [{ page_number := 1, lines := r.2.2.2, text := none }] else []
    , total_pages := 1
    , pages_to_process := [1] }

/-- The metadata file_type field (main.py 315). -/
def file_type (file_bytes : List Nat) : String :=
  if is_pdf file_bytes then "pdf" else "image"

/-! ### The /ocr request handler (main.py 103-344) -/

/-- Python exceptions distinguished by the handler: FastAPI
HTTPException is re-raised unchanged; every other exception is caught by
the catch-all and carries only its message. -/
inductive PyExc where
  | httpException (status : Nat) (detail : String)
  | exception (msg : String)
deriving DecidableEq

/-- An uploaded file: its bytes and its client-side filename. -/
structure UploadFileM where
  bytes : List Nat
  filename : String
deriving DecidableEq

/-- The form fields of POST /ocr that the embedded logic reads.
language, auto_rotate, enhance_quality, include_metadata and request_id
only parameterise the engine oracle, logging or time-dependent metadata
and are omitted. -/
structure Request where
  file : Option UploadFileM
  file_url : Option String
  pages : String
  max_pages : Int
  flags : Flags
deriving DecidableEq

/-- External collaborators of the handler, as oracles: the HTTP
download, pdf2image page rasterisation (returning the number of page
images), and the OCR engine on a staged PDF page image (by 0-based
index) or on the staged original image bytes. Error values stand for
raised exceptions and carry the message. -/
structure Oracles where
  download : String → Except String (List Nat)
  pdfImages : List Nat → Except String Nat
  ocrPage : Nat → Except String (List OcrLine)
  ocrImage : List Nat → Except String (List OcrLine)

/-- The JSON response on success. request_id and processing_time_ms are
time-dependent and omitted; metadata is omitted except for file_type,
embedded separately. -/
structure OcrResponse where
  success : Bool
  text : String
  pages_processed : Nat
  confidence : Option ℚ
  pages : Option (List PageData)
deriving DecidableEq

/-- Python truthiness of the optional file_url form field: None and the
empty string are falsy. -/
def strTruthy : Option String → Bool
  | none => false
  | some s => !(s == "")

/-- Last path segment of a URL: file_url.split("/")[-1] (main.py 161). -/
def lastSegment (s : String) : String :=
  (splitOnChar '/' s.data).getLastD [] |> String.mk

/-- Read the uploaded file (main.py 168-170). A None file here would
fault in Python; the message stands for that fault. -/
def resolveUpload : Option UploadFileM → Except PyExc (List Nat × String)
  | some up => .ok (up.bytes, up.filename)
  | none => .error (.exception "AttributeError: NoneType has no attribute read")

/-- Obtain the document bytes and filename (main.py 154-170): a truthy
file_url is downloaded (download failures become HTTP 400), otherwise
the uploaded file is read. -/
def resolveInput (file : Option UploadFileM) (file_url : Option String)
    (download : String → Except String (List Nat)) : Except PyExc (List Nat × String) :=
  match file_url with
  | some url =>
    if url == "" then resolveUpload file
    else
      match download url with
      | .ok b => .ok (b, lastSegment url)
      | .error e => .error (.httpException 400 ("Failed to download file: " ++ e))
  | none => resolveUpload file

/-- Shape the success response (main.py 299-311). -/
def mkResponse (f : Flags) (combined_text : String) (avg : ℚ)
    (all_results : List PageData) (pages_to_process : List Int) : OcrResponse :=
  { success := true
  , text := combined_text
  , pages_processed := pages_to_process.length
  , confidence := if f.include_confidence then some (pyRound4 avg) else none
  , pages :=
      if (f.include_coordinates || f.include_confidence) && !all_results.isEmpty then
        some all_results
      else none }

/-- The try-block body of extract_text (main.py 135-326). The boolean of
the pair records whether the temp directory was created before the body
finished (mkdtemp at line 152 runs after input validation). -/
def extract_body (req : Request) (o : Oracles) : Except PyExc OcrResponse × Bool :=
  if !req.file.isSome && !strTruthy req.file_url then
    (.error (.httpException 400 "Either 'file' or 'file_url' must be provided"), false)
  else
    let r : Except PyExc OcrResponse := do
      let (file_bytes, _filename) ← resolveInput req.file req.file_url o.download
      if is_pdf file_bytes then
        let total_pages ← (o.pdfImages file_bytes).mapError PyExc.exception
        let pages_to_process ←
          (parse_pages req.pages (total_pages : Int) req.max_pages).mapError PyExc.exception
        let agg ← (pageLoop req.flags o.ocrPage total_pages pages_to_process initAgg).mapError PyExc.exception
        let combined_text := String.intercalate "\n\n" agg.all_text
        pure (mkResponse req.flags combined_text (docAvg agg) agg.all_results pages_to_process)
      else
        let lines ← (o.ocrImage file_bytes).mapError PyExc.exception
        let br := processImage req.flags lines
        pure (mkResponse req.flags br.combined_text br.avg_confidence br.all_results br.pages_to_process)
    (r, true)

/-- Catch-all of the handler (main.py 328-335): HTTPException is
re-raised unchanged, anything else becomes a 500. -/
def classifyExc : PyExc → PyExc
  | .httpException s d => .httpException s d
  | .exception m => .httpException 500 ("OCR processing failed: " ++ m)

/-- Final state of one request: the HTTP-level result and whether the
request left its temp directory behind. -/
structure Outcome where
  result : Except PyExc OcrResponse
  tempRemains : Bool

/-- The whole extract_text handler (main.py 103-344): run the body,
classify any exception, then run the finally-block cleanup (337-344),
which removes the temp directory when one was created and swallows its
own failure (modelled by the cleanupFails flag). -/
def extract_text (req : Request) (o : Oracles) (cleanupFails : Bool) : Outcome :=
  let body := extract_body req o
  { result :=
      match body.1 with
      | .ok r => .ok r
      | .error e => .error (classifyExc e)
  , tempRemains := body.2 && cleanupFails }

/-! ### Specification-side helpers (sums over engine output, used to
state what the accumulators of the loops compute) -/

/-- Sum of the line confidences of one page of engine output. -/
def lineConfSum (ls : List OcrLine) : ℚ :=
  (ls.map (fun l => l.confidence)).sum

/-- Sum of the line confidences over the pages of engine output. -/
def confSum (Ls : List (List OcrLine)) : ℚ :=
  (Ls.map lineConfSum).sum

/-- Number of lines over the pages of engine output. -/
def lineCount (Ls : List (List OcrLine)) : Nat :=
  (Ls.map List.length).sum

/-- Engine output for each selected page, in selection order; an engine
or indexing exception on any page is the outcome of the whole list, as
in the page loop. -/
def pageLinesList (ocr : Nat → Except String (List OcrLine)) (total : Nat) :
    List Int → Except String (List (List OcrLine))
  | [] => .ok []
  | p :: rest =>
    match pageLines ocr total p with
    | .error e => .error e
    | .ok L =>
      match pageLinesList ocr total rest with
      | .error e => .error e
      | .ok Ls => .ok (L :: Ls)

/-! ### Concrete requests and oracles used to evaluate the model -/

/-- Default output options of the form: include_confidence true,
include_coordinates false. -/
def defaultFlags : Flags := { include_confidence := true, include_coordinates := false }

/-- A PDF upload (bytes begin with the %PDF magic). -/
def pdfUpload : UploadFileM := { bytes := pdfMagic ++ [49], filename := "d.pdf" }

/-- A request carrying a PDF upload and the page expression 1-3,5. -/
def reqC2 : Request :=
  { file := some pdfUpload, file_url := none, pages := "1-3,5", max_pages := 50, flags := defaultFlags }

/-- Oracles for a five-page PDF whose pages contain no text. -/
def oC2 : Oracles :=
  { download := fun _ => .error "offline"
  , pdfImages := fun _ => .ok 5
  , ocrPage := fun _ => .ok []
  , ocrImage := fun _ => .ok [] }

/-- One recognised line with confidence 9/10. -/
def lineOk : OcrLine := { text := "ok", confidence := 9/10, bbox := [] }

/-- A request carrying a PDF upload and pages all. -/
def reqC3 : Request :=
  { file := some pdfUpload, file_url := none, pages := "all", max_pages := 50, flags := defaultFlags }

/-- Oracles for a two-page PDF where OCR raises on the first page and
succeeds on the second. -/
def oC3 : Oracles :=
  { download := fun _ => .error "offline"
  , pdfImages := fun _ => .ok 2
  , ocrPage := fun i => if i == 0 then .error "cv2 cannot decode page" else .ok [lineOk]
  , ocrImage := fun _ => .ok [] }

/-- A request supplying BOTH an uploaded file (bytes [1]) and a source
URL. -/
def reqC4 : Request :=
  { file := some { bytes := [1], filename := "up.png" }
  , file_url := some "http://host/a.png"
  , pages := "all", max_pages := 50, flags := defaultFlags }

/-- Oracles whose download yields bytes [2] and whose engine output
names the byte source it was given, so the response text reveals which
source the handler used. -/
def oC4 : Oracles :=
  { download := fun _ => .ok [2]
  , pdfImages := fun _ => .error "not a pdf"
  , ocrPage := fun _ => .ok []
  , ocrImage := fun b =>
      if b == [2] then .ok [{ text := "url", confidence := 1, bbox := [] }]
      else .ok [{ text := "upload", confidence := 1, bbox := [] }] }

/-- One recognised line with confidence 1/2. -/
def lineHalf : OcrLine := { text := "a", confidence := 1/2, bbox := [] }

/-- A request carrying a PDF upload and the page expression 4,2. -/
def reqC5 : Request :=
  { file := some pdfUpload, file_url := none, pages := "4,2", max_pages := 50, flags := defaultFlags }

/-- Oracles for a five-page PDF each of whose pages holds one line. -/
def oC5 : Oracles :=
  { download := fun _ => .error "offline"
  , pdfImages := fun _ => .ok 5
  , ocrPage := fun _ => .ok [lineHalf]
  , ocrImage := fun _ => .ok [] }

/-- A request uploading image bytes (PNG-like, not %PDF). -/
def reqC6 : Request :=
  { file := some { bytes := [137, 80, 78, 71], filename := "i.png" }
  , file_url := none, pages := "all", max_pages := 50, flags := defaultFlags }

/-- Oracles whose engine finds no text in the image. -/
def oC6 : Oracles :=
  { download := fun _ => .error "offline"
  , pdfImages := fun _ => .error "not a pdf"
  , ocrPage := fun _ => .ok []
  , ocrImage := fun _ => .ok [] }

/-- Recognised lines with the confidences 9/10 and 8/10 of the spec's
worked example. -/
def lineNine : OcrLine := { text := "a", confidence := 9/10, bbox := [] }

def lineEight : OcrLine := { text := "b", confidence := 8/10, bbox := [] }

/-- Engine oracle returning the two example lines for every page. -/
def ocrW7 : Nat → Except String (List OcrLine) := fun _ => .ok [lineNine, lineEight]

/-- The accumulator state after the page loop runs over one page with
the two example lines under default flags. -/
def aggW7 : Agg :=
  match pageLoop defaultFlags ocrW7 1 [1] initAgg with
  | .ok a => a
  | .error _ => initAgg

/-- The accumulator state after the page loop of the reqC5 run:
pages 4 then 2, one half-confidence line each. -/
def aggW5 : Agg :=
  match pageLoop defaultFlags oC5.ocrPage 5 [4, 2] initAgg with
  | .ok a => a
  | .error _ => initAgg

/-- Oracles for which every collaborator is inert. -/
def oBlank : Oracles :=
  { download := fun _ => .error "offline"
  , pdfImages := fun _ => .error "not a pdf"
  , ocrPage := fun _ => .ok []
  , ocrImage := fun _ => .ok [] }

/-- A request supplying neither a file nor a URL. -/
def reqW4 : Request :=
  { file := none, file_url := none, pages := "all", max_pages := 50, flags := defaultFlags }

/-- The page entry produced for a single image holding lineNine under
default flags. -/
def pdW6 : PageData :=
  ((processImage defaultFlags [lineNine]).all_results).headD
    { page_number := 0, lines := [], text := none }

/-! ### General lemmas about the embedded functions -/

theorem mem_pyRange {a b p : Int} (h : p ∈ pyRange a b) : a ≤ p ∧ p < b := by
  unfold pyRange at h
  simp only [List.mem_map, List.mem_range] at h
  obtain ⟨i, hi, rfl⟩ := h
  omega

theorem pyRange_sorted (a b : Int) : List.Sorted (· < ·) (pyRange a b) := by
  unfold pyRange
  exact List.Pairwise.map _ (fun x y (hxy : x < y) => by omega) (List.pairwise_lt_range _)

theorem lineLoop_spec (f : Flags) (ls : List OcrLine) (texts : List String)
    (tc : ℚ) (cc : Nat) (lds : List LineData) :
    lineLoop f ls texts tc cc lds =
      (texts ++ ls.map (fun l => l.text), tc + lineConfSum ls, cc + ls.length,
       lds ++ (if anyDetail f then ls.map (mkLineData f) else [])) := by
  induction ls generalizing texts tc cc lds with
  | nil => simp [lineLoop, lineConfSum]
  | cons l rest ih =>
    cases hd : anyDetail f with
    | true =>
      simp only [lineLoop, hd, if_true, ih, Prod.mk.injEq, lineConfSum, List.map_cons,
        List.sum_cons, List.length_cons, eq_self_iff_true]
      refine ⟨by simp, by ring, by omega, by simp⟩
    | false =>
      simp only [lineLoop, hd, ih, Prod.mk.injEq, lineConfSum, List.map_cons,
        List.sum_cons, List.length_cons, Bool.false_eq_true, if_false]
      refine ⟨by simp, by ring, by omega, by simp⟩

theorem processOnePage_totals (f : Flags) (p : Int) (L : List OcrLine) (st : Agg) :
    (processOnePage f p L st).total_confidence = st.total_confidence + lineConfSum L ∧
    (processOnePage f p L st).confidence_count = st.confidence_count + L.length := by
  unfold processOnePage
  cases hL : L.isEmpty with
  | true =>
    have : L = [] := List.isEmpty_iff.mp hL
    subst this
    simp [lineConfSum]
  | false =>
    simp only [hL, Bool.false_eq_true, if_false, lineLoop_spec]
    exact ⟨trivial, trivial⟩

theorem processOnePage_pageNumbers (f : Flags) (p : Int) (L : List OcrLine) (st : Agg) :
    (processOnePage f p L st).all_results.map (fun pd => pd.page_number) =
      st.all_results.map (fun pd => pd.page_number) ++
        (if anyDetail f && !L.isEmpty then [p] else []) := by
  unfold processOnePage
  cases hL : L.isEmpty with
  | true => simp [hL]
  | false =>
    cases hd : anyDetail f with
    | true => simp [hL, hd, lineLoop_spec]
    | false => simp [hL, hd, lineLoop_spec]

theorem pageLoop_sums (f : Flags) (ocr : Nat → Except String (List OcrLine)) (total : Nat) :
    ∀ (pages : List Int) (st : Agg) (Ls : List (List OcrLine)) (agg : Agg),
      pageLinesList ocr total pages = .ok Ls →
      pageLoop f ocr total pages st = .ok agg →
      agg.total_confidence = st.total_confidence + confSum Ls ∧
      agg.confidence_count = st.confidence_count + lineCount Ls := by
  intro pages
  induction pages with
  | nil =>
    intro st Ls agg h1 h2
    simp only [pageLinesList] at h1
    simp only [pageLoop] at h2
    cases h1
    cases h2
    simp [confSum, lineCount]
  | cons p rest ih =>
    intro st Ls agg h1 h2
    simp only [pageLinesList] at h1
    simp only [pageLoop] at h2
    cases hpl : pageLines ocr total p with
    | error e => rw [hpl] at h1; cases h1
    | ok L =>
      rw [hpl] at h1 h2
      cases hrest : pageLinesList ocr total rest with
      | error e => rw [hrest] at h1; cases h1
      | ok Ls2 =>
        rw [hrest] at h1
        cases h1
        have hi := ih (processOnePage f p L st) Ls2 agg hrest h2
        have ht := processOnePage_totals f p L st
        constructor
        · rw [hi.1, ht.1]
          simp [confSum, lineConfSum]
          ring
        · rw [hi.2, ht.2]
          simp [lineCount]
          omega

theorem pageLoop_results (f : Flags) (ocr : Nat → Except String (List OcrLine)) (total : Nat) :
    ∀ (pages : List Int) (st : Agg) (agg : Agg),
      pageLoop f ocr total pages st = .ok agg →
      ∃ s : List Int,
        agg.all_results.map (fun pd => pd.page_number) =
          st.all_results.map (fun pd => pd.page_number) ++ s ∧ s.Sublist pages := by
  intro pages
  induction pages with
  | nil =>
    intro st agg h
    simp only [pageLoop] at h
    cases h
    exact ⟨[], by simp⟩
  | cons p rest ih =>
    intro st agg h
    simp only [pageLoop] at h
    cases hpl : pageLines ocr total p with
    | error e => rw [hpl] at h; cases h
    | ok L =>
      rw [hpl] at h
      obtain ⟨s, hs, hsub⟩ := ih (processOnePage f p L st) agg h
      rw [processOnePage_pageNumbers] at hs
      cases hc : anyDetail f && !L.isEmpty with
      | true =>
        rw [hc] at hs
        refine ⟨p :: s, ?_, List.Sublist.cons₂ p hsub⟩
        simpa [List.append_assoc] using hs
      | false =>
        rw [hc] at hs
        exact ⟨s, by simpa using hs, List.Sublist.cons p hsub⟩

theorem parsePages_sorted_of_no_comma (expr : String) (total max : Int) (l : List Int)
    (hc : expr.data.contains ',' = false)
    (h : parse_pages expr total max = .ok l) : l.Sorted (· < ·) := by
  unfold parse_pages at h
  split_ifs at h with h1 h2 h3 h4 h5
  · injection h with h
    subst h
    exact pyRange_sorted _ _
  · injection h with h
    subst h
    exact List.sorted_singleton 1
  · injection h with h
    subst h
    exact List.sorted_singleton total
  · split at h
    · rename_i s e heq
      cases hs : pyInt s with
      | none => rw [hs] at h; simp at h
      | some start =>
        rw [hs] at h
        cases he : pyInt e with
        | none => rw [he] at h; simp at h
        | some en =>
          rw [he] at h
          injection h with h
          subst h
          exact pyRange_sorted _ _
    · simp at h
  · rw [hc] at h5
    exact Bool.noConfusion h5
  · cases hpi : pyInt expr.data with
    | none =>
      rw [hpi] at h
      injection h with h
      subst h
      exact List.sorted_singleton 1
    | some page =>
      rw [hpi] at h
      dsimp only at h
      split_ifs at h with hcond
      · injection h with h
        subst h
        exact List.sorted_singleton page
      · injection h with h
        subst h
        exact List.sorted_singleton 1

/-! ### Claim theorems -/

/-- C8: the page selector satisfies the concrete test vectors of the
spec: all, first, last, the range 1-3, the list 2,4, and the silent
fallback of the out-of-range single page 99, all with five total pages
and a cap of fifty. -/
theorem parsePages_test_vectors :
    parse_pages "all" 5 50 = .ok [1, 2, 3, 4, 5] ∧
    parse_pages "first" 5 50 = .ok [1] ∧
    parse_pages "last" 5 50 = .ok [5] ∧
    parse_pages "1-3" 5 50 = .ok [1, 2, 3] ∧
    parse_pages "2,4" 5 50 = .ok [2, 4] ∧
    parse_pages "99" 5 50 = .ok [1] :=
  ⟨rfl, rfl, rfl, rfl, rfl, rfl⟩

/-- C10: is_pdf is total on byte sequences shorter than four bytes and
classifies them as non-PDF, since the Python slice file_bytes[:4] of a
short sequence is the sequence itself, which cannot equal the four-byte
magic. -/
theorem isPdf_total_short_input (b : List Nat) (h : b.length < 4) : is_pdf b = false := by
  unfold is_pdf
  rw [beq_eq_false_iff_ne]
  intro he
  have hl := congrArg List.length he
  simp only [List.length_take, pdfMagic, List.length_cons, List.length_nil] at hl
  omega

/-- Witness for C10 at the one-byte input 137. -/
theorem isPdf_total_short_input_witness :
    ([137] : List Nat).length < 4 ∧ is_pdf [137] = false :=
  ⟨by decide, isPdf_total_short_input [137] (by decide)⟩

/-- C9: the finally-block cleanup of extract_text removes the temp
directory on every exit path when the removal itself succeeds, and a
failing removal (swallowed by the bare except) never changes the
HTTP-level result of the request. -/
theorem tempDir_cleanup (req : Request) (o : Oracles) (cleanupFails : Bool) :
    (extract_text req o cleanupFails).result = (extract_text req o false).result ∧
    (extract_text req o false).tempRemains = false := by
  constructor
  · rfl
  · simp [extract_text]

/-- Counterexample to C1: the expression last with ten total pages and a
cap of five returns page 10, which exceeds min(total_pages, max_pages)
= 5. -/
theorem parsePages_last_ignores_max_pages :
    parse_pages "last" 10 5 = .ok [10] ∧ ¬ ((10 : Int) ≤ min 10 5) :=
  ⟨rfl, by decide⟩

/-- Counterexample to C2: the expression 1-3,5 on a five-page PDF makes
the whole request fail with the generic HTTP 500 handler, not with an
HTTP 400 page-expression error. -/
theorem rangeCommaExpr_yields_500_not_400 :
    (extract_text reqC2 oC2 false).result =
      .error (.httpException 500
        "OCR processing failed: invalid literal for int() with base 10: 3,5") ∧
    (500 : Nat) ≠ 400 :=
  ⟨rfl, by decide⟩

/-- Counterexample to C3: OCR raising on page 1 of a two-page PDF aborts
the whole request with HTTP 500; the document-level request does not
succeed and no per-page error marker is produced. -/
theorem pageOcrFailure_aborts_request :
    (extract_text reqC3 oC3 false).result =
      .error (.httpException 500 "OCR processing failed: cv2 cannot decode page") ∧
    (extract_text reqC3 oC3 false).result.toOption = none :=
  ⟨rfl, rfl⟩

/-- Counterexample to C4: with both an upload (bytes [1]) and a URL
(downloading to bytes [2]) supplied, the handler feeds the DOWNLOADED
bytes to the engine, so the response text is the one the engine gives
for the URL bytes, not for the uploaded bytes. -/
theorem bothSources_url_bytes_used :
    reqC4.file = some { bytes := [1], filename := "up.png" } ∧
    (extract_text reqC4 oC4 false).result.map (fun r => r.text) = .ok "url" ∧
    "url" ≠ "upload" :=
  ⟨rfl, rfl, by decide⟩

/-- Counterexample to C5: the comma expressions 4,2 and 2,2 keep listed
order and duplicates, and the page_number sequence of the processed
pages of the 4,2 run is [4, 2], which is not non-decreasing. -/
theorem commaList_order_and_duplicates_kept :
    parse_pages "4,2" 5 50 = .ok [4, 2] ∧
    parse_pages "2,2" 5 50 = .ok [2, 2] ∧
    (extract_text reqC5 oC5 false).result.map
        (fun r => r.pages.map (fun l => l.map (fun pd => pd.page_number))) =
      .ok (some [4, 2]) ∧
    ¬ List.Sorted (· ≤ ·) [(4 : Int), 2] ∧
    ¬ ([(2 : Int), 2].Nodup) :=
  ⟨rfl, rfl, rfl, by decide, by decide⟩

/-- Counterexample to C6: a valid (non-PDF) image in which the engine
finds no text yields zero processed-page entries, not one. -/
theorem emptyImage_zero_pages_processed :
    is_pdf [137, 80, 78, 71] = false ∧
    (extract_text reqC6 oC6 false).result.map (fun r => r.pages_processed) = .ok 0 ∧
    (0 : Nat) ≠ 1 :=
  ⟨rfl, rfl, by decide⟩

/-- C1 as amended: with total_pages and max_pages at least 1, every page
number returned by the page selector is at most total_pages, and for
expressions without a dash every page number is also at least 1. The
bound min(total_pages, max_pages) of the original claim does not hold
(the expressions last and single-number ignore max_pages) and the lower
bound 1 does not hold for ranges (the start is never clamped). -/
theorem parsePages_bounds (expr : String) (total max : Int) (l : List Int)
    (htot : 1 ≤ total) (hmax : 1 ≤ max)
    (h : parse_pages expr total max = .ok l) :
    (∀ p ∈ l, p ≤ total) ∧ (expr.data.contains '-' = false → ∀ p ∈ l, 1 ≤ p) := by
  unfold parse_pages at h
  split_ifs at h with h1 h2 h3 h4 h5
  · injection h with h
    subst h
    constructor
    · intro p hp
      have := mem_pyRange hp
      omega
    · intro _ p hp
      have := mem_pyRange hp
      omega
  · injection h with h
    subst h
    constructor
    · intro p hp
      simp only [List.mem_singleton] at hp
      omega
    · intro _ p hp
      simp only [List.mem_singleton] at hp
      omega
  · injection h with h
    subst h
    constructor
    · intro p hp
      simp only [List.mem_singleton] at hp
      omega
    · intro _ p hp
      simp only [List.mem_singleton] at hp
      omega
  · refine ⟨?_, fun hcontra => by rw [hcontra] at h4; exact Bool.noConfusion h4⟩
    split at h
    · rename_i s e heq
      cases hs : pyInt s with
      | none => rw [hs] at h; simp at h
      | some start =>
        rw [hs] at h
        cases he : pyInt e with
        | none => rw [he] at h; simp at h
        | some en =>
          rw [he] at h
          injection h with h
          subst h
          intro p hp
          have := mem_pyRange hp
          omega
    · simp at h
  · cases hil : pyIntList (splitOnChar ',' expr.data) with
    | error e => rw [hil] at h; simp at h
    | ok page_list =>
      rw [hil] at h
      injection h with h
      subst h
      constructor
      · intro p hp
        rw [List.mem_filter] at hp
        have := of_decide_eq_true hp.2
        omega
      · intro _ p hp
        rw [List.mem_filter] at hp
        have := of_decide_eq_true hp.2
        omega
  · cases hpi : pyInt expr.data with
    | none =>
      rw [hpi] at h
      injection h with h
      subst h
      constructor
      · intro p hp
        simp only [List.mem_singleton] at hp
        omega
      · intro _ p hp
        simp only [List.mem_singleton] at hp
        omega
    | some page =>
      rw [hpi] at h
      dsimp only at h
      split_ifs at h with hcond
      · injection h with h
        subst h
        constructor
        · intro p hp
          simp only [List.mem_singleton] at hp
          omega
        · intro _ p hp
          simp only [List.mem_singleton] at hp
          omega
      · injection h with h
        subst h
        constructor
        · intro p hp
          simp only [List.mem_singleton] at hp
          omega
        · intro _ p hp
          simp only [List.mem_singleton] at hp
          omega

/-- Witness for the amended C1 at the expression 2,4 with five pages and
a cap of fifty. -/
theorem parsePages_bounds_witness :
    ((1 : Int) ≤ 5) ∧ ((1 : Int) ≤ 50) ∧ parse_pages "2,4" 5 50 = .ok [2, 4] ∧
    ((∀ p ∈ [(2 : Int), 4], p ≤ 5) ∧
     ("2,4".data.contains '-' = false → ∀ p ∈ [(2 : Int), 4], 1 ≤ p)) :=
  ⟨by decide, by decide, rfl,
   parsePages_bounds "2,4" 5 50 [2, 4] (by decide) (by decide) rfl⟩

/-- C2 as amended: the expression 1-3,5 is taken by the range rule first
regardless of page counts, the numeric parse of the range end 3,5 fails
with a ValueError, and that failure surfaces to the caller as an error —
but through the generic handler as HTTP 500 (OCR processing failed),
not as an HTTP 400 page-expression error; it does not silently fall
back. -/
theorem rangeCommaExpr_surfaces_error :
    (∀ total max : Int, parse_pages "1-3,5" total max =
       .error "invalid literal for int() with base 10: 3,5") ∧
    (∀ m : String, classifyExc (.exception m) =
       .httpException 500 ("OCR processing failed: " ++ m)) :=
  ⟨fun _ _ => rfl, fun _ => rfl⟩

/-- C3 as amended: an engine exception on a selected page makes the page
loop return that error at once — the remaining pages are not processed
and no per-page error marker is recorded — and the catch-all turns it
into an HTTP 500 for the whole request. -/
theorem pageLoop_propagates_engine_error :
    (∀ (f : Flags) (ocr : Nat → Except String (List OcrLine)) (total : Nat)
       (p : Int) (rest : List Int) (st : Agg) (e : String),
       pageLines ocr total p = .error e →
       pageLoop f ocr total (p :: rest) st = .error e) ∧
    (∀ m : String, classifyExc (.exception m) =
       .httpException 500 ("OCR processing failed: " ++ m)) := by
  constructor
  · intro f ocr total p rest st e h
    simp only [pageLoop, h]
  · intro m
    rfl

/-- Witness for the amended C3: an engine that raises on every page
makes the loop over pages 1 and 2 of a three-page document fail. -/
theorem pageLoop_propagates_engine_error_witness :
    pageLines (fun _ => .error "boom") 3 1 = .error "boom" ∧
    pageLoop defaultFlags (fun _ => .error "boom") 3 [1, 2] initAgg = .error "boom" :=
  ⟨rfl,
   pageLoop_propagates_engine_error.1 defaultFlags (fun _ => .error "boom") 3 1 [2]
     initAgg "boom" rfl⟩

/-- C4 as amended: when neither a file nor a URL is supplied the request
fails with HTTP 400, and when a (truthy) URL is supplied the downloaded
bytes are used — the URL takes precedence over any upload, the reverse
of the original claim; the resolution is a function of the inputs, hence
consistent across requests. -/
theorem inputResolution_spec :
    (∀ (req : Request) (o : Oracles) (cf : Bool),
       req.file = none → strTruthy req.file_url = false →
       (extract_text req o cf).result =
         .error (.httpException 400 "Either 'file' or 'file_url' must be provided")) ∧
    (∀ (file : Option UploadFileM) (url : String)
       (download : String → Except String (List Nat)) (b : List Nat),
       url ≠ "" → download url = .ok b →
       resolveInput file (some url) download = .ok (b, lastSegment url)) := by
  constructor
  · intro req o cf h1 h2
    simp [extract_text, extract_body, h1, h2, classifyExc]
  · intro file url download b hne hdl
    simp [resolveInput, beq_eq_false_iff_ne.mpr hne, hdl]

/-- Witness for the amended C4: the empty request is rejected with 400,
and a URL downloading to bytes [7] resolves to those bytes with the last
URL segment as filename. -/
theorem inputResolution_spec_witness :
    (extract_text reqW4 oBlank true).result =
      .error (.httpException 400 "Either 'file' or 'file_url' must be provided") ∧
    resolveInput none (some "http://h/x.png") (fun _ => .ok [7]) = .ok ([7], "x.png") :=
  ⟨inputResolution_spec.1 reqW4 oBlank true rfl rfl,
   inputResolution_spec.2 none "http://h/x.png" (fun _ => .ok [7]) [7] (by decide) rfl⟩

/-- C5 as amended: the page_number sequence of the processed pages is a
sublist of (follows the order of) the selector output, and for every
page expression WITHOUT a comma that output is strictly increasing,
hence non-decreasing and duplicate-free; comma lists instead keep their
listed order and duplicates, so the original invariant fails for them. -/
theorem pagesProcessed_follow_selector :
    (∀ (f : Flags) (ocr : Nat → Except String (List OcrLine)) (total : Nat)
       (pages : List Int) (agg : Agg),
       pageLoop f ocr total pages initAgg = .ok agg →
       (agg.all_results.map (fun pd => pd.page_number)).Sublist pages) ∧
    (∀ (expr : String) (total max : Int) (l : List Int),
       expr.data.contains ',' = false →
       parse_pages expr total max = .ok l →
       l.Sorted (· < ·) ∧ l.Nodup) := by
  constructor
  · intro f ocr total pages agg h
    obtain ⟨s, hs, hsub⟩ := pageLoop_results f ocr total pages initAgg agg h
    simp only [initAgg, List.map_nil, List.nil_append] at hs
    rw [hs]
    exact hsub
  · intro expr total max l hc h
    have hsort := parsePages_sorted_of_no_comma expr total max l hc h
    exact ⟨hsort, hsort.nodup⟩

/-- Witness for the amended C5 at the 4,2 run of reqC5 and at the range
expression 1-3. -/
theorem pagesProcessed_follow_selector_witness :
    pageLoop defaultFlags oC5.ocrPage 5 [4, 2] initAgg = .ok aggW5 ∧
    aggW5.all_results.map (fun pd => pd.page_number) = [4, 2] ∧
    (aggW5.all_results.map (fun pd => pd.page_number)).Sublist [4, 2] ∧
    ("1-3".data.contains ',' = false) ∧ parse_pages "1-3" 5 50 = .ok [1, 2, 3] ∧
    (List.Sorted (· < ·) [(1 : Int), 2, 3] ∧ [(1 : Int), 2, 3].Nodup) :=
  ⟨rfl, rfl,
   pagesProcessed_follow_selector.1 defaultFlags oC5.ocrPage 5 [4, 2] aggW5 rfl,
   by decide, rfl,
   pagesProcessed_follow_selector.2 "1-3" 5 50 [1, 2, 3] (by decide) rfl⟩

/-- C6 as amended: a non-PDF byte stream resolves to the image document
type and is processed as one page numbered 1 — pages_to_process is [1]
and every produced page entry has page_number 1 — EXCEPT that when the
engine finds no text the processed-pages result is empty rather than
holding one entry. -/
theorem imageBranch_single_page :
    (∀ (f : Flags) (lines : List OcrLine),
       (processImage f lines).total_pages = 1 ∧
       (processImage f lines).pages_to_process =
         (if lines.isEmpty then ([] : List Int) else [1]) ∧
       ∀ pd ∈ (processImage f lines).all_results, pd.page_number = 1) ∧
    (∀ bytes : List Nat, is_pdf bytes = false → file_type bytes = "image") := by
  constructor
  · intro f lines
    unfold processImage
    cases hL : lines.isEmpty with
    | true => simp [hL]
    | false =>
      simp only [hL, Bool.false_eq_true, if_false]
      refine ⟨by trivial, by trivial, ?_⟩
      cases hd : anyDetail f with
      | true =>
        simp only [hd, if_true]
        intro pd hpd
        simp only [List.mem_singleton] at hpd
        subst hpd
        rfl
      | false => simp [hd]
  · intro bytes h
    simp [file_type, h]

/-- Witness for the amended C6 at a one-line image and at the byte
stream [0]. -/
theorem imageBranch_single_page_witness :
    (processImage defaultFlags [lineNine]).pages_to_process =
      (if ([lineNine].isEmpty) then ([] : List Int) else [1]) ∧
    pdW6 ∈ (processImage defaultFlags [lineNine]).all_results ∧
    pdW6.page_number = 1 ∧
    is_pdf [0] = false ∧ file_type [0] = "image" :=
  ⟨(imageBranch_single_page.1 defaultFlags [lineNine]).2.1,
   List.mem_cons_self pdW6 [],
   (imageBranch_single_page.1 defaultFlags [lineNine]).2.2 pdW6 (List.mem_cons_self pdW6 []),
   rfl,
   imageBranch_single_page.2 [0] rfl⟩

/-- C7: the document-level average confidence equals the sum of all line
confidences over all processed pages divided by the number of lines, and
is 0 when no lines were recognised: for the PDF page loop the final
accumulators equal those sums, and the image branch divides the line
confidence sum by the line count. The witness instantiates the page loop
on one page with confidences 9/10 and 8/10, giving 17/20 = 0.85. -/
theorem averageConfidence_is_mean :
    (∀ (f : Flags) (ocr : Nat → Except String (List OcrLine)) (total : Nat)
       (pages : List Int) (Ls : List (List OcrLine)) (agg : Agg),
       pageLinesList ocr total pages = .ok Ls →
       pageLoop f ocr total pages initAgg = .ok agg →
       docAvg agg = (if lineCount Ls = 0 then 0 else confSum Ls / (lineCount Ls : ℚ))) ∧
    (∀ (f : Flags) (lines : List OcrLine),
       (processImage f lines).avg_confidence =
         (if lines.length = 0 then 0 else lineConfSum lines / (lines.length : ℚ))) := by
  constructor
  · intro f ocr total pages Ls agg h1 h2
    obtain ⟨htc, hcc⟩ := pageLoop_sums f ocr total pages initAgg Ls agg h1 h2
    simp only [initAgg] at htc hcc
    rw [docAvg, htc, hcc]
    simp only [zero_add, Nat.zero_add]
    by_cases hz : lineCount Ls = 0
    · simp [hz]
    · simp [hz, Nat.pos_of_ne_zero hz]
  · intro f lines
    unfold processImage
    cases hL : lines.isEmpty with
    | true =>
      have : lines = [] := List.isEmpty_iff.mp hL
      subst this
      simp
    | false =>
      have hne : lines ≠ [] := fun he => by rw [he] at hL; exact Bool.noConfusion hL
      have hpos : 0 < lines.length := List.length_pos.mpr hne
      simp only [hL, Bool.false_eq_true, if_false, lineLoop_spec]
      simp only [zero_add]
      rw [if_pos hpos, if_neg (by omega)]

/-- Witness for C7: one page holding the two example lines of the spec,
whose average confidence is 17/20, that is 0.85. -/
theorem averageConfidence_is_mean_witness :
    pageLinesList ocrW7 1 [1] = .ok [[lineNine, lineEight]] ∧
    pageLoop defaultFlags ocrW7 1 [1] initAgg = .ok aggW7 ∧
    docAvg aggW7 =
      (if lineCount [[lineNine, lineEight]] = 0 then 0
       else confSum [[lineNine, lineEight]] / (lineCount [[lineNine, lineEight]] : ℚ)) ∧
    docAvg aggW7 = 17/20 := by
  have h := averageConfidence_is_mean.1 defaultFlags ocrW7 1 [1] [[lineNine, lineEight]]
    aggW7 rfl rfl
  refine ⟨rfl, rfl, h, ?_⟩
  rw [h]
  norm_num [confSum, lineConfSum, lineCount, lineNine, lineEight]

end OcrService
